import Mathlib

/-!
Verification of the DGFortsTool relay server (`Backend.py`).

The Python module keeps three module-level dicts:
  * `client_connections : client_id -> websocket`   (the connection registry)
  * `binding_relations  : client_id -> target_id`   (the symmetric binding map)
  * `client_timers      : "{client_id}-{channel}" -> task` (active delivery timers)

We embed the dicts as association lists with python-dict semantics
(`dictGet` / `dictSet` / `dictDel`), websockets as a socket handle (`Nat`)
plus an open flag, and each coroutine of the server as a pure function from
state to state together with the list of messages it sends on which socket.
-/

namespace DGForts

/-- The four-field wire message (JSON object with keys
`type`, `clientId`, `targetId`, `message`), from `Backend.py`. -/
structure Msg where
  type : String
  clientId : String
  targetId : String
  message : String
deriving Repr, DecidableEq

/-- A websocket as seen by the server: the identity of the underlying socket
object and its `ws.open` flag. -/
structure Conn where
  sock : Nat
  isOpen : Bool
deriving Repr, DecidableEq

/-- One `await ws.send(json.dumps(msg))`: destination socket plus payload. -/
structure Send where
  dest : Nat
  msg : Msg
deriving Repr, DecidableEq

/-- A python `Dict[str, α]` as an association list (first match wins,
`dictSet` keeps keys unique). -/
abbrev Dict (α : Type) := List (String × α)

/-- `d[k]` / `d.get(k)`: first binding of `k`. -/
def dictGet {α : Type} : Dict α → String → Option α
  | [], _ => none
  | p :: t, k => if p.1 = k then some p.2 else dictGet t k

/-- `d.get(k, default)`. -/
def dictGetD {α : Type} (m : Dict α) (k : String) (d : α) : α :=
  (dictGet m k).getD d

/-- `d[k] = v`: overwrite any previous binding of `k`. -/
def dictSet {α : Type} (m : Dict α) (k : String) (v : α) : Dict α :=
  (k, v) :: m.filter (fun p => p.1 ≠ k)

/-- `del d[k]` guarded by `if k in d` (deleting an absent key is a no-op). -/
def dictDel {α : Type} (m : Dict α) (k : String) : Dict α :=
  m.filter (fun p => p.1 ≠ k)

/-- `k in d`. -/
def dictMem {α : Type} (m : Dict α) (k : String) : Bool :=
  (dictGet m k).isSome

/-- `w in d.values()`. -/
def dictValMem {α : Type} [BEq α] (m : Dict α) (w : α) : Bool :=
  m.any (fun p => p.2 == w)

/-- The whole mutable state of `Backend.py`: the three module-level dicts.
Timer tasks are represented by their key only (the dict's keys are what the
cleanup logic inspects). -/
structure ServerState where
  client_connections : Dict Conn
  binding_relations : Dict String
  client_timers : List String
deriving Repr, DecidableEq

/-- The empty initial state of the module. -/
def initState : ServerState := ⟨[], [], []⟩

/-! ### Basic dictionary lemmas -/

theorem dictGet_filter_ne {α : Type} (m : Dict α) (k k' : String) (hk : k ≠ k') :
    dictGet (m.filter (fun p => p.1 ≠ k)) k' = dictGet m k' := by
  induction m with
  | nil => rfl
  | cons p t ih =>
    rw [List.filter_cons]
    by_cases hp : p.1 = k
    · have hpk : ¬ p.1 = k' := by rw [hp]; exact hk
      rw [if_neg (by simp [hp]), dictGet, if_neg hpk]
      exact ih
    · rw [if_pos (by simp [hp])]
      by_cases hpk : p.1 = k'
      · rw [dictGet, if_pos hpk, dictGet, if_pos hpk]
      · rw [dictGet, if_neg hpk, dictGet, if_neg hpk]
        exact ih

theorem dictGet_filter_self {α : Type} (m : Dict α) (k : String) :
    dictGet (m.filter (fun p => p.1 ≠ k)) k = none := by
  induction m with
  | nil => rfl
  | cons p t ih =>
    rw [List.filter_cons]
    by_cases hp : p.1 = k
    · rw [if_neg (by simp [hp])]
      exact ih
    · rw [if_pos (by simp [hp]), dictGet, if_neg hp]
      exact ih

theorem dictGet_dictSet {α : Type} (m : Dict α) (k k' : String) (v : α) :
    dictGet (dictSet m k v) k' = if k = k' then some v else dictGet m k' := by
  by_cases h : k = k'
  · simp [dictSet, dictGet, h]
  · rw [dictSet, dictGet, if_neg h, if_neg h]
    exact dictGet_filter_ne m k k' h

theorem dictGet_dictDel {α : Type} (m : Dict α) (k k' : String) :
    dictGet (dictDel m k) k' = if k = k' then none else dictGet m k' := by
  by_cases h : k = k'
  · subst h
    rw [if_pos rfl, dictDel]
    exact dictGet_filter_self m k
  · rw [if_neg h, dictDel]
    exact dictGet_filter_ne m k k' h

theorem dictGet_mem {α : Type} {m : Dict α} {k : String} {v : α}
    (h : dictGet m k = some v) : (k, v) ∈ m := by
  induction m with
  | nil => simp [dictGet] at h
  | cons p t ih =>
    rw [dictGet] at h
    by_cases hp : p.1 = k
    · rw [if_pos hp] at h
      obtain ⟨p1, p2⟩ := p
      simp only at hp h
      injection h with h2
      rw [← hp, ← h2]
      exact List.mem_cons_self _ _
    · rw [if_neg hp] at h
      exact List.mem_cons_of_mem _ (ih h)

theorem dictGet_val_mem {α : Type} {m : Dict α} {k : String} {v : α}
    (h : dictGet m k = some v) : v ∈ m.map Prod.snd :=
  List.mem_map_of_mem Prod.snd (dictGet_mem h)

/-! ### The server operations, translated from `Backend.py` -/

/-- `validate_relation` (lines 51–62): a non-bind message from socket `ws`
claiming origin `client_id` and target `target_id` is rejected with `404`
when either id is unregistered or when `ws` is neither party's socket, and
with `402` when `binding_relations.get(client_id)` is not `target_id`. -/
def validate_relation (s : ServerState) (client_id target_id : String) (ws : Nat) :
    Bool × String :=
  match dictGet s.client_connections client_id, dictGet s.client_connections target_id with
  | some cc, some tc =>
    if cc.sock ≠ ws ∧ tc.sock ≠ ws then (false, "404")
    else if dictGet s.binding_relations client_id ≠ some target_id then (false, "402")
    else (true, "200")
  | _, _ => (false, "404")

/-- The heartbeat payloads built by one pass of the `for` loop in
`send_heartbeat` (lines 43–47): one message per open connection, carrying
its id, its partner (or `""`), and body `"200"`. -/
def heartbeat_msgs (b : Dict String) (conns : Dict Conn) : List Send :=
  (conns.filter (fun p => p.2.isOpen)).map
    (fun p => ⟨p.2.sock, ⟨"heartbeat", p.1, dictGetD b p.1 "", "200"⟩⟩)

/-- One tick of `send_heartbeat` (lines 40–48): nothing is sent while the
registry is empty, otherwise every open connection gets its message; closed
connections are skipped and never removed. -/
def heartbeat_tick (s : ServerState) : List Send :=
  if s.client_connections.isEmpty then []
  else heartbeat_msgs s.binding_relations s.client_connections

/-- The `while total_sends > 0` loop of `delay_send_msg` (lines 94–101):
sleep, then stop if the target is closed at check `i`, else send and
recurse. Returns the number of sends the loop performs. -/
def delay_loop (openAt : Nat → Bool) : Nat → Nat → Nat
  | _, 0 => 0
  | i, r + 1 => if openAt i then 1 + delay_loop openAt (i + 1) r else 0

/-- Number of sends performed by `delay_send_msg` (lines 86–101): the first
send is attempted immediately when the target is open at check `0`, then
`total_sends` is decremented unconditionally and the loop runs on the rest.
`openAt i` is the value of `target_ws.open` at the i-th check. -/
def delay_send_count (openAt : Nat → Bool) (total_sends : Int) : Nat :=
  (if openAt 0 then 1 else 0) + delay_loop openAt 1 (total_sends - 1).toNat

/-- `delay_send_msg` (lines 76–107): the whole task — number of sends
performed, and the timer dict after the `finally` block removed
`timer_key`. -/
def delay_send_msg (openAt : Nat → Bool) (total_sends : Int)
    (timers : List String) (timer_key : String) : Nat × List String :=
  (delay_send_count openAt total_sends, timers.filter (fun k => k ≠ timer_key))

/-- `cancel_timer` (lines 65–73): drop the `"{client_id}-{channel}"` entry
from the timer dict (no-op when absent). -/
def cancel_timer (timers : List String) (client_id channel : String) : List String :=
  timers.filter (fun k => k ≠ client_id ++ "-" ++ channel)

/-- `key.split("-")[1]`, as used by the cleanup loop (line 252). -/
def chanPart (key : String) : String := (key.splitOn "-").getD 1 ""

/-- The timer-cancellation loop of the `finally` block (lines 250–252):
for every snapshot key starting with `"{client_id}-"`, call `cancel_timer`
on `client_id` and `key.split("-")[1]`. -/
def timerSweep (client_id : String) (timers : List String) : List String :=
  timers.foldl
    (fun ts key =>
      if (client_id ++ "-").isPrefixOf key then cancel_timer ts client_id (chanPart key)
      else ts)
    timers

/-- Result of the disconnect cleanup: the state afterwards, the messages it
sent, and whether an exception escaped the `finally` block. -/
structure CleanupResult where
  state : ServerState
  sends : List Send
  raised : Bool
deriving Repr, DecidableEq

/-- The `finally` block of `handle_client` (lines 225–254), for the loop
variable value `client_id`: delete the registry entry, then — if
`client_id` is bound — notify and close a still-open partner and delete the
binding both ways, then run the timer-cancellation loop. `breakFails = true`
models the awaited `send` to the partner (line 236) raising, which aborts
the rest of the block. -/
def cleanup (s : ServerState) (client_id : String) (breakFails : Bool) : CleanupResult :=
  match dictGet s.binding_relations client_id with
  | none =>
      ⟨⟨dictDel s.client_connections client_id, s.binding_relations,
         timerSweep client_id s.client_timers⟩, [], false⟩
  | some target_id =>
      match dictGet (dictDel s.client_connections client_id) target_id with
      | some c =>
          if c.isOpen then
            if breakFails then
              ⟨⟨dictDel s.client_connections client_id, s.binding_relations,
                 s.client_timers⟩, [], true⟩
            else
              ⟨⟨dictSet (dictDel s.client_connections client_id) target_id ⟨c.sock, false⟩,
                 dictDel (dictDel s.binding_relations client_id) target_id,
                 timerSweep client_id s.client_timers⟩,
               [⟨c.sock, ⟨"break", client_id, target_id, "209"⟩⟩], false⟩
          else
            ⟨⟨dictDel s.client_connections client_id,
               dictDel (dictDel s.binding_relations client_id) target_id,
               timerSweep client_id s.client_timers⟩, [], false⟩
      | none =>
          ⟨⟨dictDel s.client_connections client_id,
             dictDel (dictDel s.binding_relations client_id) target_id,
             timerSweep client_id s.client_timers⟩, [], false⟩

/-- The `type_ == "bind"` branch of `handle_client` (lines 147–182):
reject with `401` when the target is unregistered, with `400` when the
origin is a key or the target a value of `binding_relations`; otherwise
write the two binding entries and notify both parties — looking up
`client_connections[client_id]` raises `KeyError` when the origin is
unregistered, which the outer handler reports as `error`/`500` (after the
binding entries were already written). -/
def handle_bind (s : ServerState) (ws : Nat) (client_id target_id : String) :
    ServerState × List Send :=
  if (dictGet s.client_connections target_id).isNone then
    (s, [⟨ws, ⟨"bind", client_id, target_id, "401"⟩⟩])
  else if dictMem s.binding_relations client_id
          ∨ target_id ∈ s.binding_relations.map Prod.snd then
    (s, [⟨ws, ⟨"bind", client_id, target_id, "400"⟩⟩])
  else
    let b2 := dictSet (dictSet s.binding_relations client_id target_id) target_id client_id
    let s2 : ServerState := ⟨s.client_connections, b2, s.client_timers⟩
    match dictGet s.client_connections client_id, dictGet s.client_connections target_id with
    | some cc, some tc =>
        (s2, [⟨cc.sock, ⟨"bind", client_id, target_id, "200"⟩⟩,
              ⟨tc.sock, ⟨"bind", client_id, target_id, "200"⟩⟩])
    | _, _ =>
        (s2, [⟨ws, ⟨"error", client_id, target_id, "500"⟩⟩])

/-- The default (non-bind) branch of `handle_client` (lines 184–203):
validate the claimed relation; on failure send the coded `error` back to
the sender, on success forward a message with the same four fields to the
target's socket. No state is modified. -/
def handle_other (s : ServerState) (ws : Nat) (m : Msg) : List Send :=
  let vr := validate_relation s m.clientId m.targetId ws
  if vr.1 then
    match dictGet s.client_connections m.targetId with
    | some tc => [⟨tc.sock, ⟨m.type, m.clientId, m.targetId, m.message⟩⟩]
    | none => []
  else [⟨ws, ⟨"error", m.clientId, m.targetId, vr.2⟩⟩]

/-- Value of the local variable `client_id` of `handle_client` when the
read loop ends: the server-assigned id, overwritten by line 142
(`client_id = data["clientId"]`) for every well-formed message the client
sent (`none` models a message rejected before that line). The `finally`
block cleans up under this value. -/
def cleanup_id (assigned : String) (msgs : List (Option Msg)) : String :=
  msgs.foldl (fun cur m => match m with | some msg => msg.clientId | none => cur) assigned

/-- One observable event of the server: a connection acceptance, a received
message (bind or other), a disconnect (with the transport oracle for the
partner notification), a heartbeat tick, or a delivery task finishing and
deleting its own timer key. -/
inductive Op where
  | accept (id : String) (sock : Nat)
  | recvBind (ws : Nat) (client_id target_id : String)
  | recvOther (ws : Nat) (m : Msg)
  | disconnect (client_id : String) (breakFails : Bool)
  | heartbeat
  | timerDone (key : String)
deriving Repr, DecidableEq

/-- State transition of each event: only `accept`, the bind branch, the
disconnect cleanup and a timer's own `finally` ever write the module dicts;
forwarding and heartbeats are read-only. -/
def applyOp (s : ServerState) : Op → ServerState
  | .accept id sock =>
      ⟨dictSet s.client_connections id ⟨sock, true⟩, s.binding_relations, s.client_timers⟩
  | .recvBind ws client_id target_id => (handle_bind s ws client_id target_id).1
  | .recvOther _ _ => s
  | .disconnect client_id bf => (cleanup s client_id bf).state
  | .heartbeat => s
  | .timerDone key =>
      ⟨s.client_connections, s.binding_relations, s.client_timers.filter (fun k => k ≠ key)⟩

/-- State after a whole event trace, starting from the empty module state. -/
def runOps (ops : List Op) : ServerState := ops.foldl applyOp initState

/-- The binding map is symmetric: every forward entry has its reverse. -/
def SymmBind (m : Dict String) : Prop :=
  ∀ a b, dictGet m a = some b → dictGet m b = some a

/-- The stored keys are pairwise distinct (python-dict shape). -/
def KeysNodup {α : Type} (m : Dict α) : Prop := (m.map Prod.fst).Nodup

/-! ### Helper lemmas about the operations -/

theorem delay_loop_all_open (openAt : Nat → Bool) (h : ∀ j, openAt j = true) :
    ∀ r i, delay_loop openAt i r = r := by
  intro r
  induction r with
  | zero => intro i; rfl
  | succ n ih =>
    intro i
    rw [delay_loop, h i, if_pos rfl, ih (i + 1)]
    omega

theorem delay_loop_cutoff (k : Nat) :
    ∀ r i, delay_loop (fun j => decide (j < k)) i r = min (k - i) r := by
  intro r
  induction r with
  | zero => intro i; simp [delay_loop]
  | succ n ih =>
    intro i
    rw [delay_loop]
    by_cases hik : i < k
    · rw [if_pos (by simpa using hik), ih (i + 1)]
      omega
    · rw [if_neg (by simpa using hik)]
      omega

theorem keysNodup_filter {α : Type} (m : Dict α) (q : String × α → Bool)
    (h : KeysNodup m) : KeysNodup (m.filter q) :=
  List.Nodup.sublist (List.Sublist.map Prod.fst (List.filter_sublist m)) h

theorem keysNodup_dictSet {α : Type} (m : Dict α) (k : String) (v : α)
    (h : KeysNodup m) : KeysNodup (dictSet m k v) := by
  unfold KeysNodup dictSet
  rw [List.map_cons, List.nodup_cons]
  constructor
  · intro hmem
    obtain ⟨p, hp, hfst⟩ := List.mem_map.mp hmem
    have := (List.mem_filter.mp hp).2
    simp only [decide_not, Bool.not_eq_true', decide_eq_false_iff_not] at this
    exact this hfst
  · exact keysNodup_filter m _ h

theorem keysNodup_dictDel {α : Type} (m : Dict α) (k : String)
    (h : KeysNodup m) : KeysNodup (dictDel m k) :=
  keysNodup_filter m _ h

theorem keysNodup_pairs_unique {α : Type} {m : Dict α} (h : KeysNodup m) :
    ∀ a b b', (a, b) ∈ m → (a, b') ∈ m → b = b' := by
  induction m with
  | nil => intro a b b' h1; simp at h1
  | cons p t ih =>
    intro a b b' h1 h2
    unfold KeysNodup at h
    rw [List.map_cons, List.nodup_cons] at h
    obtain ⟨hnm, hnd⟩ := h
    rcases List.mem_cons.mp h1 with he1 | ht1
    · rcases List.mem_cons.mp h2 with he2 | ht2
      · rw [← he1] at he2
        injection he2 with _ h2'
        exact h2'.symm
      · exfalso
        apply hnm
        have ha : a ∈ t.map Prod.fst := List.mem_map.mpr ⟨(a, b'), ht2, rfl⟩
        have hp1 : p.1 = a := by rw [← he1]
        rw [hp1]
        exact ha
    · rcases List.mem_cons.mp h2 with he2 | ht2
      · exfalso
        apply hnm
        have ha : a ∈ t.map Prod.fst := List.mem_map.mpr ⟨(a, b), ht1, rfl⟩
        have hp1 : p.1 = a := by rw [← he2]
        rw [hp1]
        exact ha
      · exact ih hnd a b b' ht1 ht2

theorem symmBind_dictSet2 {m : Dict String} (hS : SymmBind m) (cid tid : String)
    (hcid : dictGet m cid = none) (htid : tid ∉ m.map Prod.snd) :
    SymmBind (dictSet (dictSet m cid tid) tid cid) := by
  intro a b hab
  rw [dictGet_dictSet, dictGet_dictSet] at hab
  rw [dictGet_dictSet, dictGet_dictSet]
  by_cases hta : tid = a
  · subst hta
    rw [if_pos rfl] at hab
    injection hab with hb
    subst hb
    by_cases htc : tid = cid
    · rw [if_pos htc, htc]
    · rw [if_neg htc, if_pos rfl]
  · rw [if_neg hta] at hab
    by_cases hca : cid = a
    · subst hca
      rw [if_pos rfl] at hab
      injection hab with hb
      subst hb
      rw [if_pos rfl]

    · rw [if_neg hca] at hab
      by_cases htb : tid = b
      · exfalso
        apply htid
        rw [htb]
        exact dictGet_val_mem hab
      · by_cases hcb : cid = b
        · exfalso
          have h2 := hS a b hab
          rw [← hcb, hcid] at h2
          exact Option.noConfusion h2
        · rw [if_neg htb, if_neg hcb]
          exact hS a b hab

theorem symmBind_dictDel2 {m : Dict String} (hS : SymmBind m) (cid tid : String)
    (hcid : dictGet m cid = some tid) :
    SymmBind (dictDel (dictDel m cid) tid) := by
  intro a b hab
  rw [dictGet_dictDel, dictGet_dictDel] at hab
  rw [dictGet_dictDel, dictGet_dictDel]
  by_cases hta : tid = a
  · rw [if_pos hta] at hab
    exact Option.noConfusion hab
  · rw [if_neg hta] at hab
    by_cases hca : cid = a
    · rw [if_pos hca] at hab
      exact Option.noConfusion hab
    · rw [if_neg hca] at hab
      have hba := hS a b hab
      by_cases htb : tid = b
      · exfalso
        subst htb
        have h2 := hS cid tid hcid
        rw [hba] at h2
        injection h2 with hh
        exact hca hh.symm
      · by_cases hcb : cid = b
        · exfalso
          subst hcb
          rw [hba] at hcid
          injection hcid with hh
          exact hta hh.symm
        · rw [if_neg htb, if_neg hcb]
          exact hba

/-- The bind branch either leaves the binding map unchanged, or — when the
target is registered and neither conflict check fires — writes the
symmetric pair. -/
theorem handle_bind_bindings (s : ServerState) (ws : Nat) (client_id target_id : String) :
    (handle_bind s ws client_id target_id).1.binding_relations = s.binding_relations ∨
    ((handle_bind s ws client_id target_id).1.binding_relations =
        dictSet (dictSet s.binding_relations client_id target_id) target_id client_id ∧
      dictGet s.binding_relations client_id = none ∧
      target_id ∉ s.binding_relations.map Prod.snd) := by
  unfold handle_bind
  by_cases h1 : (dictGet s.client_connections target_id).isNone
  · left
    rw [if_pos h1]
  · rw [if_neg h1]
    by_cases h2 : dictMem s.binding_relations client_id
        ∨ target_id ∈ s.binding_relations.map Prod.snd
    · left
      rw [if_pos h2]
    · rw [if_neg h2]
      push_neg at h2
      obtain ⟨h2a, h2b⟩ := h2
      right
      refine ⟨?_, ?_, h2b⟩
      · cases hcc : dictGet s.client_connections client_id <;>
          cases htc : dictGet s.client_connections target_id <;> simp [hcc, htc]
      · unfold dictMem at h2a
        exact Option.not_isSome_iff_eq_none.mp h2a

/-- The disconnect cleanup either leaves the binding map unchanged (no
binding, or the partner notification raised), or deletes the pair. -/
theorem cleanup_bindings (s : ServerState) (client_id : String) (bf : Bool) :
    (cleanup s client_id bf).state.binding_relations = s.binding_relations ∨
    ∃ target_id, dictGet s.binding_relations client_id = some target_id ∧
      (cleanup s client_id bf).state.binding_relations =
        dictDel (dictDel s.binding_relations client_id) target_id := by
  cases hb : dictGet s.binding_relations client_id with
  | none => left; simp [cleanup, hb]
  | some target_id =>
    cases hc : dictGet (dictDel s.client_connections client_id) target_id with
    | none => right; exact ⟨target_id, rfl, by simp [cleanup, hb, hc]⟩
    | some c =>
      by_cases ho : c.isOpen
      · cases bf
        · right; exact ⟨target_id, rfl, by simp [cleanup, hb, hc, ho]⟩
        · left; simp [cleanup, hb, hc, ho]
      · right; exact ⟨target_id, rfl, by simp [cleanup, hb, hc, ho]⟩

/-- No heartbeat message carries an id that is not a registry key. -/
theorem heartbeat_msgs_not_mem (b : Dict String) (cid : String) :
    ∀ conns : Dict Conn, cid ∉ conns.map Prod.fst →
      (heartbeat_msgs b conns).filter (fun e => e.msg.clientId == cid) = [] := by
  intro conns
  induction conns with
  | nil => intro _; rfl
  | cons p t ih =>
    intro h
    rw [List.map_cons, List.mem_cons] at h
    push_neg at h
    obtain ⟨h1, h2⟩ := h
    unfold heartbeat_msgs
    rw [List.filter_cons]
    by_cases ho : p.2.isOpen
    · rw [if_pos (by simpa using ho), List.map_cons, List.filter_cons,
        if_neg (by simpa using fun he : p.1 = cid => h1 he.symm)]
      exact ih h2
    · rw [if_neg (by simpa using ho)]
      exact ih h2

/-- The heartbeat messages addressed to a registered id: exactly one when
its connection is open (carrying its partner and body `"200"`), none when
it is closed. -/
theorem heartbeat_msgs_mem (b : Dict String) (cid : String) (c : Conn) :
    ∀ conns : Dict Conn, KeysNodup conns → (cid, c) ∈ conns →
      (heartbeat_msgs b conns).filter (fun e => e.msg.clientId == cid) =
        if c.isOpen then [⟨c.sock, ⟨"heartbeat", cid, dictGetD b cid "", "200"⟩⟩]
        else [] := by
  intro conns
  induction conns with
  | nil => intro _ hm; simp at hm
  | cons p t ih =>
    intro hnd hm
    unfold KeysNodup at hnd
    rw [List.map_cons, List.nodup_cons] at hnd
    obtain ⟨hpn, hnd2⟩ := hnd
    rcases List.mem_cons.mp hm with he | ht
    · subst he
      unfold heartbeat_msgs
      rw [List.filter_cons]
      have htail : cid ∉ t.map Prod.fst := by simpa using hpn
      by_cases ho : c.isOpen
      · rw [if_pos (by simpa using ho), List.map_cons, List.filter_cons,
          if_pos (by simp), if_pos ho]
        have := heartbeat_msgs_not_mem b cid t htail
        unfold heartbeat_msgs at this
        rw [this]
      · rw [if_neg (by simpa using ho), if_neg ho]
        have := heartbeat_msgs_not_mem b cid t htail
        unfold heartbeat_msgs at this
        rw [this]
    · have hp1 : p.1 ≠ cid := by
        intro he
        apply hpn
        rw [he]
        exact List.mem_map.mpr ⟨(cid, c), ht, rfl⟩
      unfold heartbeat_msgs
      rw [List.filter_cons]
      by_cases ho : p.2.isOpen
      · rw [if_pos (by simpa using ho), List.map_cons, List.filter_cons,
          if_neg (by simpa using hp1)]
        exact ih hnd2 ht
      · rw [if_neg (by simpa using ho)]
        exact ih hnd2 ht

/-- The binding-map invariant: symmetric, with python-dict key uniqueness. -/
def BindInv (s : ServerState) : Prop :=
  SymmBind s.binding_relations ∧ KeysNodup s.binding_relations

theorem bindInv_init : BindInv initState :=
  ⟨fun a b h => by simp [initState, dictGet] at h, List.nodup_nil⟩

theorem bindInv_applyOp (s : ServerState) (o : Op) (h : BindInv s) :
    BindInv (applyOp s o) := by
  obtain ⟨hS, hN⟩ := h
  cases o with
  | accept id sock => exact ⟨hS, hN⟩
  | recvOther ws m => exact ⟨hS, hN⟩
  | heartbeat => exact ⟨hS, hN⟩
  | timerDone key => exact ⟨hS, hN⟩
  | recvBind ws client_id target_id =>
    show BindInv (handle_bind s ws client_id target_id).1
    rcases handle_bind_bindings s ws client_id target_id with he | ⟨he, hnone, hval⟩
    · exact ⟨by rw [he]; exact hS, by rw [he]; exact hN⟩
    · constructor
      · rw [he]
        exact symmBind_dictSet2 hS client_id target_id hnone hval
      · rw [he]
        exact keysNodup_dictSet _ _ _ (keysNodup_dictSet _ _ _ hN)
  | disconnect client_id bf =>
    show BindInv (cleanup s client_id bf).state
    rcases cleanup_bindings s client_id bf with he | ⟨target_id, hb, he⟩
    · exact ⟨by rw [he]; exact hS, by rw [he]; exact hN⟩
    · constructor
      · rw [he]
        exact symmBind_dictDel2 hS client_id target_id hb
      · rw [he]
        exact keysNodup_dictDel _ _ (keysNodup_dictDel _ _ hN)

theorem bindInv_foldl (ops : List Op) :
    ∀ s : ServerState, BindInv s → BindInv (ops.foldl applyOp s) := by
  induction ops with
  | nil => intro s h; exact h
  | cons o t ih =>
    intro s h
    exact ih (applyOp s o) (bindInv_applyOp s o h)

theorem bindInv_runOps (ops : List Op) : BindInv (runOps ops) :=
  bindInv_foldl ops initState bindInv_init

/-- A cleanup of an unbound id sends nothing. -/
theorem cleanup_unbound_sends (s : ServerState) (client_id : String) (bf : Bool)
    (h : dictGet s.binding_relations client_id = none) :
    (cleanup s client_id bf).sends = [] := by
  simp [cleanup, h]

/-! ### The claims -/

/-- C1 (amended): a bind message whose target id is not a registered
connection is answered with `bind`/`401` to the sender and leaves the whole
state — in particular the binding map — unchanged. (The origin id is not
checked: see the counterexample for the refuted half of the claim.) -/
theorem bind_target_not_found_401 (s : ServerState) (ws : Nat)
    (client_id target_id : String)
    (h : dictGet s.client_connections target_id = none) :
    handle_bind s ws client_id target_id =
      (s, [⟨ws, ⟨"bind", client_id, target_id, "401"⟩⟩]) := by
  simp [handle_bind, h]

theorem bind_target_not_found_401_witness :
    handle_bind ⟨[("B", ⟨2, true⟩)], [], []⟩ 2 "B" "Z" =
      (⟨[("B", ⟨2, true⟩)], [], []⟩, [⟨2, ⟨"bind", "B", "Z", "401"⟩⟩]) :=
  bind_target_not_found_401 ⟨[("B", ⟨2, true⟩)], [], []⟩ 2 "B" "Z" (by decide)

/-- C1 counterexample: a bind message whose origin `"A"` is unregistered
but whose target `"B"` is registered and unbound does mutate the binding
map — the entry `("A", "B")` with unregistered origin is created, and the
sender then gets `error`/`500` from the `KeyError` on the success
notification. -/
theorem bind_unregistered_origin_binds :
    dictGet (handle_bind ⟨[("B", ⟨2, true⟩)], [], []⟩ 2 "A" "B").1.binding_relations "A" =
      some "B" ∧
    dictGet (handle_bind ⟨[("B", ⟨2, true⟩)], [], []⟩ 2 "A" "B").1.client_connections "A" =
      none ∧
    (handle_bind ⟨[("B", ⟨2, true⟩)], [], []⟩ 2 "A" "B").2 =
      [⟨2, ⟨"error", "A", "B", "500"⟩⟩] := by
  decide

/-- C8 (amended): a bind message whose target id is registered and whose
origin already has a partner — or whose target is already someone's
partner — is answered with `bind`/`400` and the state, in particular every
existing binding, is unchanged. (When the target id is unregistered the
`401` check fires first even for an already-bound origin: see the
counterexample.) -/
theorem bind_conflict_400 (s : ServerState) (ws : Nat)
    (client_id target_id : String)
    (hreg : (dictGet s.client_connections target_id).isSome = true)
    (hconf : dictMem s.binding_relations client_id = true ∨
      target_id ∈ s.binding_relations.map Prod.snd) :
    handle_bind s ws client_id target_id =
      (s, [⟨ws, ⟨"bind", client_id, target_id, "400"⟩⟩]) := by
  cases hx : dictGet s.client_connections target_id with
  | none => rw [hx] at hreg; simp at hreg
  | some tc =>
    unfold handle_bind
    rw [hx]
    rw [if_neg (by simp)]
    rw [if_pos hconf]

theorem bind_conflict_400_witness :
    handle_bind ⟨[("A", ⟨1, true⟩), ("B", ⟨2, true⟩), ("C", ⟨3, true⟩)],
        [("A", "B"), ("B", "A")], []⟩ 1 "A" "C" =
      (⟨[("A", ⟨1, true⟩), ("B", ⟨2, true⟩), ("C", ⟨3, true⟩)],
        [("A", "B"), ("B", "A")], []⟩, [⟨1, ⟨"bind", "A", "C", "400"⟩⟩]) :=
  bind_conflict_400 _ 1 "A" "C" (by decide) (Or.inl (by decide))

/-- C8 counterexample: origin `"A"` already has partner `"B"`, but because
its bind names the unregistered target `"Z"` the code answers `401`, not
the claimed `400` (the not-found check runs first). -/
theorem bind_bound_origin_401 :
    dictGet (⟨[("A", ⟨1, true⟩), ("B", ⟨2, true⟩)], [("A", "B"), ("B", "A")], []⟩ :
        ServerState).binding_relations "A" = some "B" ∧
    handle_bind ⟨[("A", ⟨1, true⟩), ("B", ⟨2, true⟩)], [("A", "B"), ("B", "A")], []⟩
        1 "A" "Z" =
      (⟨[("A", ⟨1, true⟩), ("B", ⟨2, true⟩)], [("A", "B"), ("B", "A")], []⟩,
       [⟨1, ⟨"bind", "A", "Z", "401"⟩⟩]) ∧
    (handle_bind ⟨[("A", ⟨1, true⟩), ("B", ⟨2, true⟩)], [("A", "B"), ("B", "A")], []⟩
        1 "A" "Z").2.all (fun e => e.msg.message != "400") = true := by
  decide

/-- C4 (amended): in every state reachable by any event trace the binding
map is symmetric (if A is bound to B then B is bound to A) and stores at
most one partner per identifier. (The rest of the original claim fails: a
binding need not pair two distinct registered identifiers — a self-binding
is reachable, see the counterexample.) -/
theorem binding_symmetric_at_most_one (ops : List Op) :
    (∀ a b, dictGet (runOps ops).binding_relations a = some b →
      dictGet (runOps ops).binding_relations b = some a) ∧
    (∀ a b b', (a, b) ∈ (runOps ops).binding_relations →
      (a, b') ∈ (runOps ops).binding_relations → b = b') := by
  obtain ⟨hS, hN⟩ := bindInv_runOps ops
  exact ⟨hS, keysNodup_pairs_unique hN⟩

theorem binding_symmetric_at_most_one_witness :
    dictGet (runOps [Op.accept "A" 1, Op.accept "B" 2,
        Op.recvBind 1 "A" "B"]).binding_relations "B" = some "A" :=
  (binding_symmetric_at_most_one
      [Op.accept "A" 1, Op.accept "B" 2, Op.recvBind 1 "A" "B"]).1 "A" "B" (by decide)

/-- C4 counterexample: after a client accepted as `"A"` sends a bind naming
itself as target, the reachable binding map is `[("A", "A")]` — a binding
that does not pair two identifiers, refuting the "pairs exactly two
connection identifiers" part of the claim. -/
theorem binding_self_pair_reachable :
    (runOps [Op.accept "A" 1, Op.recvBind 1 "A" "A"]).binding_relations = [("A", "A")] ∧
    ¬ (∀ a b, dictGet (runOps [Op.accept "A" 1,
        Op.recvBind 1 "A" "A"]).binding_relations a = some b → a ≠ b) :=
  ⟨by decide, fun h => h "A" "A" (by decide) rfl⟩

/-- C2 (amended): the three cleanup steps run sequentially in one `finally`
block, not independently. Registry removal (step a) always executes, and
when nothing raises the binding teardown and the timer-cancellation loop
both execute; but if the partner-notification send of step b raises, the
binding map and the timer dict are left untouched — steps b's deletion and
all of step c are skipped. -/
theorem cleanup_steps_are_sequential (s : ServerState)
    (client_id target_id : String) (c : Conn)
    (hb : dictGet s.binding_relations client_id = some target_id)
    (hc : dictGet (dictDel s.client_connections client_id) target_id = some c)
    (hopen : c.isOpen = true) :
    (cleanup s client_id true).state.client_connections =
      dictDel s.client_connections client_id ∧
    (cleanup s client_id true).state.binding_relations = s.binding_relations ∧
    (cleanup s client_id true).state.client_timers = s.client_timers ∧
    (cleanup s client_id true).raised = true ∧
    (cleanup s client_id false).state.binding_relations =
      dictDel (dictDel s.binding_relations client_id) target_id ∧
    (cleanup s client_id false).state.client_timers =
      timerSweep client_id s.client_timers := by
  refine ⟨?_, ?_, ?_, ?_, ?_, ?_⟩ <;> simp [cleanup, hb, hc, hopen]

theorem cleanup_steps_are_sequential_witness :
    (cleanup ⟨[("A", ⟨1, true⟩), ("B", ⟨2, true⟩)], [("A", "B"), ("B", "A")], ["A-1"]⟩
        "A" true).state.client_connections =
      dictDel [("A", ⟨1, true⟩), ("B", ⟨2, true⟩)] "A" ∧
    (cleanup ⟨[("A", ⟨1, true⟩), ("B", ⟨2, true⟩)], [("A", "B"), ("B", "A")], ["A-1"]⟩
        "A" true).state.binding_relations = [("A", "B"), ("B", "A")] ∧
    (cleanup ⟨[("A", ⟨1, true⟩), ("B", ⟨2, true⟩)], [("A", "B"), ("B", "A")], ["A-1"]⟩
        "A" true).state.client_timers = ["A-1"] ∧
    (cleanup ⟨[("A", ⟨1, true⟩), ("B", ⟨2, true⟩)], [("A", "B"), ("B", "A")], ["A-1"]⟩
        "A" true).raised = true ∧
    (cleanup ⟨[("A", ⟨1, true⟩), ("B", ⟨2, true⟩)], [("A", "B"), ("B", "A")], ["A-1"]⟩
        "A" false).state.binding_relations =
      dictDel (dictDel [("A", "B"), ("B", "A")] "A") "B" ∧
    (cleanup ⟨[("A", ⟨1, true⟩), ("B", ⟨2, true⟩)], [("A", "B"), ("B", "A")], ["A-1"]⟩
        "A" false).state.client_timers = timerSweep "A" ["A-1"] :=
  cleanup_steps_are_sequential
    ⟨[("A", ⟨1, true⟩), ("B", ⟨2, true⟩)], [("A", "B"), ("B", "A")], ["A-1"]⟩
    "A" "B" ⟨2, true⟩ (by decide) (by decide) rfl

/-- C2 counterexample: with `"A"` bound to the open partner `"B"` and timer
key `"A-1"` active, a raise in the partner notification leaves the binding
pair and the timer entry in place — binding teardown and timer cancellation
did not execute. -/
theorem cleanup_abort_skips_teardown :
    (cleanup ⟨[("A", ⟨1, true⟩), ("B", ⟨2, true⟩)], [("A", "B"), ("B", "A")], ["A-1"]⟩
        "A" true).state.binding_relations = [("A", "B"), ("B", "A")] ∧
    (cleanup ⟨[("A", ⟨1, true⟩), ("B", ⟨2, true⟩)], [("A", "B"), ("B", "A")], ["A-1"]⟩
        "A" true).state.client_timers = ["A-1"] ∧
    (cleanup ⟨[("A", ⟨1, true⟩), ("B", ⟨2, true⟩)], [("A", "B"), ("B", "A")], ["A-1"]⟩
        "A" true).raised = true := by
  decide

/-- C3: the read loop reassigns its local `client_id` to the `clientId`
field of every well-formed message (line 142), and the `finally` block
cleans up under that value. A connection accepted as `"A"` that sent one
message claiming `"B"` is cleaned up as `"B"`: its own registry entry
`"A"` survives the cleanup, contradicting the claim that exactly the
server-assigned identifier is removed. -/
theorem cleanup_removes_spoofed_id :
    cleanup_id "A" [some ⟨"cmd", "B", "", "x"⟩] = "B" ∧
    dictGet (cleanup ⟨[("A", ⟨1, true⟩)], [], []⟩
        (cleanup_id "A" [some ⟨"cmd", "B", "", "x"⟩]) false).state.client_connections "A" =
      some ⟨1, true⟩ := by
  decide

/-- C5: when a bound connection disconnects and its partner is registered
and still open (and the notification send does not fail), the partner
receives exactly one `break`/`209` message — the cleanup's only send — the
partner's socket is then closed by the server, afterwards neither
identifier holds any binding, and the partner's own later cleanup sends no
further message. -/
theorem disconnect_break_partner (s : ServerState)
    (client_id target_id : String) (c : Conn)
    (hb : dictGet s.binding_relations client_id = some target_id)
    (hc : dictGet (dictDel s.client_connections client_id) target_id = some c)
    (hopen : c.isOpen = true) :
    (cleanup s client_id false).sends =
      [⟨c.sock, ⟨"break", client_id, target_id, "209"⟩⟩] ∧
    dictGet (cleanup s client_id false).state.client_connections target_id =
      some ⟨c.sock, false⟩ ∧
    dictGet (cleanup s client_id false).state.binding_relations client_id = none ∧
    dictGet (cleanup s client_id false).state.binding_relations target_id = none ∧
    (cleanup (cleanup s client_id false).state target_id false).sends = [] := by
  have hconns : (cleanup s client_id false).state.client_connections =
      dictSet (dictDel s.client_connections client_id) target_id ⟨c.sock, false⟩ := by
    simp [cleanup, hb, hc, hopen]
  have hbind : (cleanup s client_id false).state.binding_relations =
      dictDel (dictDel s.binding_relations client_id) target_id := by
    simp [cleanup, hb, hc, hopen]
  have hbt : dictGet (cleanup s client_id false).state.binding_relations target_id =
      none := by
    rw [hbind, dictGet_dictDel, if_pos rfl]
  refine ⟨by simp [cleanup, hb, hc, hopen], ?_, ?_, hbt, ?_⟩
  · rw [hconns, dictGet_dictSet, if_pos rfl]
  · rw [hbind, dictGet_dictDel, dictGet_dictDel]
    by_cases h : target_id = client_id
    · rw [if_pos h]
    · rw [if_neg h, if_pos rfl]
  · exact cleanup_unbound_sends _ _ _ hbt

theorem disconnect_break_partner_witness :
    (cleanup ⟨[("A", ⟨1, true⟩), ("B", ⟨2, true⟩)], [("A", "B"), ("B", "A")], []⟩
        "A" false).sends = [⟨2, ⟨"break", "A", "B", "209"⟩⟩] ∧
    dictGet (cleanup ⟨[("A", ⟨1, true⟩), ("B", ⟨2, true⟩)], [("A", "B"), ("B", "A")], []⟩
        "A" false).state.client_connections "B" = some ⟨2, false⟩ ∧
    dictGet (cleanup ⟨[("A", ⟨1, true⟩), ("B", ⟨2, true⟩)], [("A", "B"), ("B", "A")], []⟩
        "A" false).state.binding_relations "A" = none ∧
    dictGet (cleanup ⟨[("A", ⟨1, true⟩), ("B", ⟨2, true⟩)], [("A", "B"), ("B", "A")], []⟩
        "A" false).state.binding_relations "B" = none ∧
    (cleanup (cleanup ⟨[("A", ⟨1, true⟩), ("B", ⟨2, true⟩)],
        [("A", "B"), ("B", "A")], []⟩ "A" false).state "B" false).sends = [] :=
  disconnect_break_partner
    ⟨[("A", ⟨1, true⟩), ("B", ⟨2, true⟩)], [("A", "B"), ("B", "A")], []⟩
    "A" "B" ⟨2, true⟩ (by decide) (by decide) rfl

/-- C6: for `total_sends = N ≥ 1`, a delivery task whose target is open at
every check performs exactly `N` sends; if the target is open at exactly
the first `k < N` checks (the open check precedes every send, including
the first, so `k = 0` means no send at all), exactly `k` sends occur; and
in every case the task ends with its `timer_key` no longer in the timer
dict. -/
theorem delay_send_exact_counts (openAt : Nat → Bool) (N k : Nat)
    (timers : List String) (timer_key : String)
    (hN : 1 ≤ N) (hk : k < N) :
    delay_send_count (fun _ => true) (N : Int) = N ∧
    delay_send_count (fun i => decide (i < k)) (N : Int) = k ∧
    timer_key ∉ (delay_send_msg openAt (N : Int) timers timer_key).2 := by
  have htn : ((N : Int) - 1).toNat = N - 1 := by omega
  refine ⟨?_, ?_, ?_⟩
  · unfold delay_send_count
    rw [if_pos rfl, delay_loop_all_open _ (fun j => rfl), htn]
    omega
  · unfold delay_send_count
    rw [delay_loop_cutoff k _ 1, htn]
    by_cases hk0 : 0 < k
    · rw [if_pos (by simpa using hk0)]
      omega
    · rw [if_neg (by simpa using hk0)]
      omega
  · simp [delay_send_msg, List.mem_filter]

theorem delay_send_exact_counts_witness :
    delay_send_count (fun _ => true) (3 : Int) = 3 ∧
    delay_send_count (fun i => decide (i < 1)) (3 : Int) = 1 ∧
    "c-1" ∉ (delay_send_msg (fun _ => true) (3 : Int) ["c-1", "d-2"] "c-1").2 :=
  delay_send_exact_counts (fun _ => true) 3 1 ["c-1", "d-2"] "c-1" (by decide) (by decide)

/-- C7 (amended): a non-bind message is answered with `error`/`404` — and
nothing is forwarded — when the claimed origin or target id is
unregistered, and also when both are registered but the sending socket is
neither party's connection; it is answered with `error`/`402` — and nothing
is forwarded — when the sending socket is one of the two parties but the
origin's recorded partner is not the claimed target. (The original claim's
unconditional "partner mismatch ⟹ 402" fails on a spoofing third socket,
which gets `404`: see the counterexample.) -/
theorem nonbind_error_codes (s : ServerState) (ws : Nat) (m : Msg) :
    ((dictGet s.client_connections m.clientId = none ∨
        dictGet s.client_connections m.targetId = none) →
      handle_other s ws m = [⟨ws, ⟨"error", m.clientId, m.targetId, "404"⟩⟩]) ∧
    (∀ cc tc, dictGet s.client_connections m.clientId = some cc →
      dictGet s.client_connections m.targetId = some tc →
      cc.sock ≠ ws → tc.sock ≠ ws →
      handle_other s ws m = [⟨ws, ⟨"error", m.clientId, m.targetId, "404"⟩⟩]) ∧
    (∀ cc tc, dictGet s.client_connections m.clientId = some cc →
      dictGet s.client_connections m.targetId = some tc →
      (cc.sock = ws ∨ tc.sock = ws) →
      dictGet s.binding_relations m.clientId ≠ some m.targetId →
      handle_other s ws m = [⟨ws, ⟨"error", m.clientId, m.targetId, "402"⟩⟩]) := by
  refine ⟨?_, ?_, ?_⟩
  · intro h
    cases hx : dictGet s.client_connections m.clientId with
    | none =>
      cases hy : dictGet s.client_connections m.targetId with
      | none => simp [handle_other, validate_relation, hx, hy]
      | some tc => simp [handle_other, validate_relation, hx, hy]
    | some cc =>
      cases hy : dictGet s.client_connections m.targetId with
      | none => simp [handle_other, validate_relation, hx, hy]
      | some tc =>
        rcases h with h | h
        · rw [hx] at h; exact Option.noConfusion h
        · rw [hy] at h; exact Option.noConfusion h
  · intro cc tc h1 h2 h3 h4
    simp [handle_other, validate_relation, h1, h2, h3, h4]
  · intro cc tc h1 h2 h3 h4
    have hsock : ¬ (cc.sock ≠ ws ∧ tc.sock ≠ ws) := by
      rcases h3 with h3 | h3
      · intro hh; exact hh.1 h3
      · intro hh; exact hh.2 h3
    simp [handle_other, validate_relation, h1, h2, hsock, h4]

theorem nonbind_error_codes_witness :
    handle_other ⟨[("B", ⟨2, true⟩)], [], []⟩ 9 ⟨"cmd", "A", "B", "x"⟩ =
      [⟨9, ⟨"error", "A", "B", "404"⟩⟩] ∧
    handle_other ⟨[("A", ⟨1, true⟩), ("B", ⟨2, true⟩)], [], []⟩ 9
        ⟨"cmd", "A", "B", "x"⟩ = [⟨9, ⟨"error", "A", "B", "404"⟩⟩] ∧
    handle_other ⟨[("A", ⟨1, true⟩), ("B", ⟨2, true⟩)], [], []⟩ 1
        ⟨"cmd", "A", "B", "x"⟩ = [⟨1, ⟨"error", "A", "B", "402"⟩⟩] :=
  ⟨(nonbind_error_codes ⟨[("B", ⟨2, true⟩)], [], []⟩ 9 ⟨"cmd", "A", "B", "x"⟩).1
      (Or.inl (by decide)),
   (nonbind_error_codes ⟨[("A", ⟨1, true⟩), ("B", ⟨2, true⟩)], [], []⟩ 9
      ⟨"cmd", "A", "B", "x"⟩).2.1 ⟨1, true⟩ ⟨2, true⟩ (by decide) (by decide)
      (by decide) (by decide),
   (nonbind_error_codes ⟨[("A", ⟨1, true⟩), ("B", ⟨2, true⟩)], [], []⟩ 1
      ⟨"cmd", "A", "B", "x"⟩).2.2 ⟨1, true⟩ ⟨2, true⟩ (by decide) (by decide)
      (Or.inl (by decide)) (by decide)⟩

/-- C7 counterexample: `"A"` and `"B"` are registered and `"A"`'s recorded
partner is not `"B"`, yet the sender — a third socket `3` that is neither
party's connection — receives `404`, not the `402` the claim requires. -/
theorem nonbind_spoofed_socket_404 :
    dictGet (⟨[("A", ⟨1, true⟩), ("B", ⟨2, true⟩), ("C", ⟨3, true⟩)], [], []⟩ :
        ServerState).binding_relations "A" ≠ some "B" ∧
    handle_other ⟨[("A", ⟨1, true⟩), ("B", ⟨2, true⟩), ("C", ⟨3, true⟩)], [], []⟩ 3
        ⟨"cmd", "A", "B", "x"⟩ = [⟨3, ⟨"error", "A", "B", "404"⟩⟩] ∧
    (⟨3, ⟨"error", "A", "B", "402"⟩⟩ : Send) ∉
      handle_other ⟨[("A", ⟨1, true⟩), ("B", ⟨2, true⟩), ("C", ⟨3, true⟩)], [], []⟩ 3
        ⟨"cmd", "A", "B", "x"⟩ := by
  decide

/-- C9: when validation succeeds for a non-bind message, the single
forwarded message delivered to the target's socket carries exactly the
received kind, origin id, target id and body — it is the received message
itself. -/
theorem forward_round_trip (s : ServerState) (ws : Nat) (m : Msg) (tc : Conn)
    (hv : (validate_relation s m.clientId m.targetId ws).1 = true)
    (htc : dictGet s.client_connections m.targetId = some tc) :
    handle_other s ws m = [⟨tc.sock, m⟩] := by
  simp [handle_other, hv, htc]

theorem forward_round_trip_witness :
    handle_other ⟨[("A", ⟨1, true⟩), ("B", ⟨2, true⟩)], [("A", "B"), ("B", "A")], []⟩
        1 ⟨"cmd", "A", "B", "strength-1+2+50"⟩ =
      [⟨2, ⟨"cmd", "A", "B", "strength-1+2+50"⟩⟩] :=
  forward_round_trip
    ⟨[("A", ⟨1, true⟩), ("B", ⟨2, true⟩)], [("A", "B"), ("B", "A")], []⟩
    1 ⟨"cmd", "A", "B", "strength-1+2+50"⟩ ⟨2, true⟩ (by decide) (by decide)

/-- C10: on a tick with a nonempty registry, a registered open connection
receives exactly one heartbeat message — carrying its own id, its current
partner (`""` if unbound) and body `"200"` — while a registered closed
connection receives none; the tick mutates no state, so closed connections
are skipped, not removed. -/
theorem heartbeat_one_per_open_conn (s : ServerState) (cid : String) (c : Conn)
    (hnd : KeysNodup s.client_connections)
    (hmem : (cid, c) ∈ s.client_connections) :
    (heartbeat_tick s).filter (fun e => e.msg.clientId == cid) =
      (if c.isOpen then
        [⟨c.sock, ⟨"heartbeat", cid, dictGetD s.binding_relations cid "", "200"⟩⟩]
      else []) ∧
    applyOp s Op.heartbeat = s := by
  constructor
  · unfold heartbeat_tick
    rw [if_neg (fun hemp =>
      List.ne_nil_of_mem hmem (List.isEmpty_iff.mp hemp))]
    exact heartbeat_msgs_mem s.binding_relations cid c s.client_connections hnd hmem
  · rfl

theorem heartbeat_one_per_open_conn_witness :
    (heartbeat_tick ⟨[("A", ⟨1, true⟩), ("B", ⟨2, false⟩)],
        [("A", "B"), ("B", "A")], []⟩).filter (fun e => e.msg.clientId == "A") =
      [⟨1, ⟨"heartbeat", "A", "B", "200"⟩⟩] ∧
    (heartbeat_tick ⟨[("A", ⟨1, true⟩), ("B", ⟨2, false⟩)],
        [("A", "B"), ("B", "A")], []⟩).filter (fun e => e.msg.clientId == "B") = [] :=
  ⟨(heartbeat_one_per_open_conn
      ⟨[("A", ⟨1, true⟩), ("B", ⟨2, false⟩)], [("A", "B"), ("B", "A")], []⟩
      "A" ⟨1, true⟩ (by unfold KeysNodup; decide) (by decide)).1,
   (heartbeat_one_per_open_conn
      ⟨[("A", ⟨1, true⟩), ("B", ⟨2, false⟩)], [("A", "B"), ("B", "A")], []⟩
      "B" ⟨2, false⟩ (by unfold KeysNodup; decide) (by decide)).1⟩

end DGForts
